import Mathlib

/-!
# Displacement Volume Analyzer — verification of the conversion and store model

Shallow embedding of the core of `src/streamlit_app.py`:

* the conversion engine (`calculate_volume`, the inline box-volume and
  remaining-volume computations of tab 1),
* the JSON-backed store (`load_data`, `ensure_valid_json_file`, the projects
  load block, the delete handler of tab 2, the CSV import handler of tab 4),
* the project-counter session state.

Python floats are modelled as exact rationals (`ℚ`); decimal literals such as
`0.061023744` denote the exact decimal fraction.  A raised Python exception
that crosses the boundary of an operation is modelled with `Except`; an
exception caught inside the operation (the try/except blocks of the store)
is modelled by the total function computing what the handler returns.
-/

namespace DVA

/-- Error taxonomy of the spec (§7).  A `KeyError` raised by a lookup in one
of the fixed conversion-factor dictionaries is the `InvalidUnit` failure. -/
inductive ConvError where
  | invalidUnit
  | invalidInput
deriving DecidableEq

/-- The ephemeral volume-result record `{mm³, cm³, in³}`. -/
structure VolumeResult where
  mm3 : ℚ
  cm3 : ℚ
  in3 : ℚ
deriving DecidableEq

/-- The `conversions` dictionary of `calculate_volume`
(src/streamlit_app.py lines 121-126); `none` models a `KeyError`. -/
def conversionFactors (unit : String) : Option (ℚ × ℚ × ℚ) :=
  if unit = "grams" then some (1000, 1, 0.061023744)
  else if unit = "ounces" then some (28316.8466, 28.3168466, 1.7295904)
  else if unit = "pounds" then some (453592.37, 453.59237, 27.6806742)
  else if unit = "kilograms" then some (1000000, 1000, 61.023744)
  else none

/-- `calculate_volume(weight, unit)` (src/streamlit_app.py lines 119-133):
looks up the factor row for `unit` (a miss raises before any arithmetic)
and scales the weight by each factor. -/
def calculate_volume (weight : ℚ) (unit : String) : Except ConvError VolumeResult :=
  match conversionFactors unit with
  | none => .error .invalidUnit
  | some (m, c, i) => .ok ⟨weight * m, weight * c, weight * i⟩

/-- The `dimension_to_mm` dictionary of tab 1 (lines 596-601). -/
def dimension_to_mm (u : String) : Option ℚ :=
  if u = "mm" then some 1
  else if u = "cm" then some 10
  else if u = "inches" then some 25.4
  else if u = "feet" then some 304.8
  else none

/-- The `mm3_to_result` dictionary of tab 1 (lines 611-615). -/
def mm3_to_result (u : String) : Option ℚ :=
  if u = "cubic mm" then some 1
  else if u = "cubic cm" then some 0.001
  else if u = "cubic inches" then some 0.000061023744
  else none

/-- The box-volume computation of tab 1 (lines 594-617): each dimension is
scaled to millimetres, the three are multiplied, and the product is scaled
to the requested result unit.  A dictionary miss raises `KeyError`
(`InvalidUnit`). -/
def convert_box_volume (length width height : ℚ) (dimUnit resUnit : String) :
    Except ConvError ℚ :=
  match dimension_to_mm dimUnit with
  | none => .error .invalidUnit
  | some f =>
    match mm3_to_result resUnit with
    | none => .error .invalidUnit
    | some g =>
      let length_mm := length * f
      let width_mm := width * f
      let height_mm := height * f
      .ok (length_mm * width_mm * height_mm * g)

/-- The remaining-volume analysis of tab 1 (lines 636, 656-661):
`remaining = box − product`; the two percentages are computed only when
`box_volume_mm3 > 0` and are `0` otherwise. -/
def compute_remaining (box product : ℚ) : ℚ × ℚ × ℚ :=
  let remaining := box - product
  if box > 0 then
    (remaining, (product / box) * 100, (remaining / box) * 100)
  else
    (remaining, 0, 0)

/-- Spec-side table (§4.1): dimension unit to millimetres.  Written from the
spec's words, to be compared with the code's `dimension_to_mm`. -/
def to_mm_spec (u : String) : ℚ :=
  if u = "mm" then 1
  else if u = "cm" then 10
  else if u = "inches" then 25.4
  else 304.8

/-- Spec-side table (§4.1): cubic millimetres to result unit.  Written from
the spec's words, to be compared with the code's `mm3_to_result`. -/
def from_mm3_spec (u : String) : ℚ :=
  if u = "cubic mm" then 1
  else if u = "cubic cm" then 0.001
  else 0.000061023744

/-! ## The JSON-backed store

The raw text of a store file is classified by how the loading code treats
it: `read().strip()` yields the empty string (empty or whitespace-only
file), or the text parses with `json.loads` as a list of records, or
parsing raises.  A `malformed` value keeps the raw text, which a rename
preserves byte-for-byte. -/

/-- Classification of the content of a store file. -/
inductive FileContent (α : Type) where
  | empty
  | valid (data : List α)
  | malformed (raw : String)
deriving DecidableEq

/-- The slice of the file system a store touches: the store file at its
path and the sibling at `<path>.backup`; `none` means the file does not
exist. -/
structure FS (α : Type) where
  file : Option (FileContent α)
  backup : Option (FileContent α)
deriving DecidableEq

/-- A calibration sample record `{id, weight, unit}`. -/
structure SampleRec where
  id : String
  weight : ℚ
  unit : String
deriving DecidableEq

/-- A saved project record, restricted to its identity key
`project_number`; the remaining fields (name, date, designer, …) are
payload that none of the store operations inspect. -/
structure ProjRec where
  project_number : Int
deriving DecidableEq

/-- `load_data()` (lines 84-97): missing file, empty content and corrupted
content all yield `[]`; the function performs no writes or renames, so the
file-system slice is returned unchanged. -/
def load_data (fs : FS SampleRec) : List SampleRec × FS SampleRec :=
  match fs.file with
  | none => ([], fs)
  | some .empty => ([], fs)
  | some (.valid data) => (data, fs)
  | some (.malformed _) => ([], fs)

/-- `ensure_valid_json_file(filename, default_data)` (lines 135-167):
create the file with the default when absent, rewrite it in place when its
stripped content is empty, leave it alone when it parses, and otherwise
rename it to `<filename>.backup` (overwriting any previous backup, as
`os.rename` does) and recreate it with the default. -/
def ensure_valid_json_file (fs : FS α) (default_data : List α) : FS α :=
  match fs.file with
  | none => { fs with file := some (.valid default_data) }
  | some .empty => { fs with file := some (.valid default_data) }
  | some (.valid _) => fs
  | some (.malformed raw) =>
      { file := some (.valid default_data), backup := some (.malformed raw) }

/-- The projects load block (lines 202-218): read and parse the file; on a
parse failure start with `[]` and rename the corrupted file to the backup
path. -/
def projects_load_block (fs : FS α) : List α × FS α :=
  match fs.file with
  | none => ([], fs)
  | some .empty => ([], fs)
  | some (.valid data) => (data, fs)
  | some (.malformed raw) => ([], { file := none, backup := some (.malformed raw) })

/-- Session-start initialization of the projects collection (lines
195-218): `ensure_valid_json_file('dva_projects.json', [])` followed by
the load block. -/
def projects_init (fs : FS α) : List α × FS α :=
  projects_load_block (ensure_valid_json_file fs [])

/-! ## The project counter -/

/-- The project-related session state: the in-memory collection and the
cached `project_counter`. -/
structure SessionState where
  projects : List ProjRec
  project_counter : Int
deriving DecidableEq

/-- Initialization of `st.session_state.project_counter` (lines 223-229):
the maximum existing project number plus one, or `1000` when there are no
projects. -/
def init_project_counter (projects : List ProjRec) : Int :=
  match projects.map (·.project_number) with
  | [] => 1000
  | n :: ns => ns.foldl max n + 1

/-- Session start for the projects tab: load the collection and compute
the counter once from it. -/
def session_start (projects : List ProjRec) : SessionState :=
  ⟨projects, init_project_counter projects⟩

/-- `create_new_project()` (line 258): increments the cached counter; the
collection is not consulted. -/
def create_new_project (s : SessionState) : SessionState :=
  { s with project_counter := s.project_counter + 1 }

/-- Modelled from the spec (§4.2 `next_project_number`), which is not a
function in the source: the maximum existing project number plus one, or
`1000` when the collection is empty.  Spec-side, for comparison with the
cached session counter. -/
def next_project_number (existing : List ProjRec) : Int :=
  match existing.map (·.project_number) with
  | [] => 1000
  | n :: ns => ns.foldl max n + 1

/-! ## Deletion by selected indices -/

/-- The delete handler of tab 2 (lines 911-922): the selected indices are
sorted in reverse (`sorted(..., reverse=True)`) and popped from the list
one at a time. -/
def delete_selected (l : List α) (idxs : List Nat) : List α :=
  (List.insertionSort (· ≥ ·) idxs).foldl List.eraseIdx l

/-- Spec-side complement (§4.2 `delete`): keep exactly the records whose
position is not selected, positions counted from `j`. -/
def keep_not_selected (idxs : List Nat) : Nat → List α → List α
  | _, [] => []
  | j, a :: as =>
    if j ∈ idxs then keep_not_selected idxs (j + 1) as
    else a :: keep_not_selected idxs (j + 1) as

/-- Spec-side complement of the selected positions of a list. -/
def complement_of (l : List α) (idxs : List Nat) : List α :=
  keep_not_selected idxs 0 l

/-- The delete handler applied to the session state (lines 911-922): the
collection shrinks, the cached counter is untouched. -/
def delete_projects (s : SessionState) (idxs : List Nat) : SessionState :=
  { s with projects := delete_selected s.projects idxs }

/-! ## CSV batch import -/

/-- Python `str.strip()` modelled on the character list. -/
def pyStrip (s : String) : String :=
  ⟨((s.data.dropWhile Char.isWhitespace).reverse.dropWhile Char.isWhitespace).reverse⟩

/-- Python `str.lower()` modelled on the character list (ASCII letters). -/
def pyLower (s : String) : String :=
  ⟨s.data.map fun c => if 'A' ≤ c ∧ c ≤ 'Z' then Char.ofNat (c.toNat + 32) else c⟩

/-- A CSV row after pandas parsing: the stringified `sample id` and `unit`
cells, and the result of `float(row['weight'])` (`none` when the
conversion raises `ValueError`/`TypeError`). -/
structure CsvRow where
  sample_id : String
  weight : Option ℚ
  unit : String

/-- One iteration of the CSV import loop (lines 1170-1194): skip the row
when its stripped id is already present in the (growing) collection, when
its normalized unit is outside the enum, or when its weight does not
parse; otherwise append it.  The accumulator carries the collection and
the imported/skipped counters. -/
def batch_import_step (acc : List SampleRec × Nat × Nat) (row : CsvRow) :
    List SampleRec × Nat × Nat :=
  let (samples, imported, skipped) := acc
  let sample_id := pyStrip row.sample_id
  if samples.any (fun s => s.id == sample_id) then (samples, imported, skipped + 1)
  else
    let unit := pyStrip (pyLower row.unit)
    if unit ∉ ["grams", "ounces", "pounds", "kilograms"] then
      (samples, imported, skipped + 1)
    else
      match row.weight with
      | some w => (samples ++ [⟨sample_id, w, unit⟩], imported + 1, skipped)
      | none => (samples, imported, skipped + 1)

/-- The CSV import handler (lines 1166-1196): fold the rows over the
current collection. -/
def batch_import (samples : List SampleRec) (rows : List CsvRow) :
    List SampleRec × Nat × Nat :=
  rows.foldl batch_import_step (samples, 0, 0)

/-- The import handler followed by the single `save_data` call (line
1196): the whole updated collection is persisted exactly once, after the
entire batch. -/
def batch_import_and_save (fs : FS SampleRec) (samples : List SampleRec)
    (rows : List CsvRow) : (List SampleRec × Nat × Nat) × FS SampleRec :=
  let r := batch_import samples rows
  (r, { fs with file := some (.valid r.1) })

/-- Row policy of the amended C9, written as direct recursion following the
amended words: a row is skipped exactly when its stripped id duplicates a
record of the collection as updated by the preceding rows of the batch, or
its normalized unit is outside the enum, or its weight did not parse;
otherwise it is appended and counted as imported. -/
def batch_import_rows : List SampleRec → List CsvRow → Nat → Nat →
    List SampleRec × Nat × Nat
  | samples, [], imported, skipped => (samples, imported, skipped)
  | samples, row :: rest, imported, skipped =>
    let sample_id := pyStrip row.sample_id
    let unit := pyStrip (pyLower row.unit)
    match row.weight with
    | none => batch_import_rows samples rest imported (skipped + 1)
    | some w =>
      if (∃ s ∈ samples, s.id = sample_id) ∨
          unit ∉ ["grams", "ounces", "pounds", "kilograms"] then
        batch_import_rows samples rest imported (skipped + 1)
      else
        batch_import_rows (samples ++ [⟨sample_id, w, unit⟩]) rest (imported + 1) skipped

end DVA

namespace DVA

/-- C1: for every weight `w ≥ 0` and every unit in the fixed enum, the
weight-to-volume conversion returns exactly the weight scaled by the fixed
factor row, with no internal rounding; in particular
`calculate_volume 1 "grams" = {mm³ := 1000, cm³ := 1, in³ := 0.061023744}`. -/
theorem calculate_volume_table (w : ℚ) (hw : 0 ≤ w) :
    calculate_volume w "grams" = .ok ⟨w * 1000, w * 1, w * 0.061023744⟩ ∧
    calculate_volume w "ounces" = .ok ⟨w * 28316.8466, w * 28.3168466, w * 1.7295904⟩ ∧
    calculate_volume w "pounds" = .ok ⟨w * 453592.37, w * 453.59237, w * 27.6806742⟩ ∧
    calculate_volume w "kilograms" = .ok ⟨w * 1000000, w * 1000, w * 61.023744⟩ ∧
    calculate_volume 1 "grams" = .ok ⟨1000, 1, 0.061023744⟩ := by
  refine ⟨?_, ?_, ?_, ?_, ?_⟩ <;> simp [calculate_volume, conversionFactors] <;> norm_num

/-- Witness for C1 at the concrete weight `2`. -/
theorem calculate_volume_table_witness :
    (0 : ℚ) ≤ 2 ∧ calculate_volume 2 "grams" = .ok ⟨2 * 1000, 2 * 1, 2 * 0.061023744⟩ :=
  ⟨by decide, (calculate_volume_table 2 (by decide)).1⟩

/-- C2: for every non-negative dimension triple and every valid unit pair,
the box-volume computation equals
`(l·to_mm) · (w·to_mm) · (h·to_mm) · from_mm3`, with the spec's fixed
tables; in particular `convert_box_volume 10 10 10 "cm" "cubic cm" = 1000`. -/
theorem convert_box_volume_spec (l w h : ℚ) (hl : 0 ≤ l) (hw : 0 ≤ w) (hh : 0 ≤ h)
    (du ru : String) (hdu : du ∈ ["mm", "cm", "inches", "feet"])
    (hru : ru ∈ ["cubic mm", "cubic cm", "cubic inches"]) :
    convert_box_volume l w h du ru =
      .ok ((l * to_mm_spec du) * (w * to_mm_spec du) * (h * to_mm_spec du) * from_mm3_spec ru) ∧
    convert_box_volume 10 10 10 "cm" "cubic cm" = .ok 1000 := by
  constructor
  · fin_cases hdu <;> fin_cases hru <;>
      simp [convert_box_volume, dimension_to_mm, mm3_to_result, to_mm_spec, from_mm3_spec]
  · simp [convert_box_volume, dimension_to_mm, mm3_to_result]
    norm_num

/-- Witness for C2 at the concrete box `10 × 10 × 10 cm` reported in cm³. -/
theorem convert_box_volume_spec_witness :
    convert_box_volume 10 10 10 "cm" "cubic cm" =
      .ok ((10 * to_mm_spec "cm") * (10 * to_mm_spec "cm") * (10 * to_mm_spec "cm") *
        from_mm3_spec "cubic cm") :=
  (convert_box_volume_spec 10 10 10 (by decide) (by decide) (by decide)
    "cm" "cubic cm" (by decide) (by decide)).1

/-- C3: the remaining-volume analysis always reports
`remaining = box − product` (negative means overflow, not an error), the two
percentages `100·product/box` and `100·remaining/box` when `box > 0`, and
`0` for both percentages when `box = 0`; the computation is total, so the
division-by-zero branch is never reached. -/
theorem compute_remaining_spec (box product : ℚ) :
    (compute_remaining box product).1 = box - product ∧
    (0 < box →
      (compute_remaining box product).2.1 = 100 * product / box ∧
      (compute_remaining box product).2.2 = 100 * (box - product) / box) ∧
    (box = 0 →
      (compute_remaining box product).2.1 = 0 ∧
      (compute_remaining box product).2.2 = 0) := by
  refine ⟨?_, ?_, ?_⟩
  · by_cases hb : box > 0 <;> simp [compute_remaining, hb]
  · intro h
    simp [compute_remaining, h]
    constructor <;> ring
  · intro h
    subst h
    simp [compute_remaining]

/-- Witness for C3 at `box = 2, product = 1` and at the guard case
`box = 0, product = 5`. -/
theorem compute_remaining_spec_witness :
    (compute_remaining 2 1).1 = 2 - 1 ∧
    (compute_remaining 2 1).2.1 = 100 * 1 / 2 ∧
    (compute_remaining 2 1).2.2 = 100 * (2 - 1) / 2 ∧
    (compute_remaining 0 5).2.1 = 0 ∧
    (compute_remaining 0 5).2.2 = 0 := by
  obtain ⟨h1, h2, -⟩ := compute_remaining_spec 2 1
  obtain ⟨-, -, h3⟩ := compute_remaining_spec 0 5
  obtain ⟨h2a, h2b⟩ := h2 (by decide)
  obtain ⟨h3a, h3b⟩ := h3 rfl
  exact ⟨h1, h2a, h2b, h3a, h3b⟩

/-- C4: for every unit string outside the fixed enum, the weight-to-volume
conversion fails with `InvalidUnit` (the factor-table lookup raises before
any arithmetic is performed). -/
theorem calculate_volume_invalid_unit (u : String)
    (hu : u ∉ ["grams", "ounces", "pounds", "kilograms"]) (w : ℚ) :
    calculate_volume w u = .error .invalidUnit := by
  simp only [List.mem_cons, List.mem_singleton, not_or] at hu
  obtain ⟨h1, h2, h3, h4⟩ := hu
  simp [calculate_volume, conversionFactors, h1, h2, h3, h4]

/-- Witness for C4 at the out-of-enum unit string `"liters"`. -/
theorem calculate_volume_invalid_unit_witness :
    ("liters" ∉ ["grams", "ounces", "pounds", "kilograms"]) ∧
    calculate_volume 5 "liters" = .error .invalidUnit :=
  ⟨by decide, calculate_volume_invalid_unit "liters" (by decide) 5⟩

/-- C5 counterexample: at the concrete negative weight `−1` the conversion
does not fail — it returns the (negative) scaled volumes. -/
theorem calculate_volume_neg_one_ok :
    calculate_volume (-1) "grams" = .ok ⟨-1000, -1, -0.061023744⟩ := by
  simp [calculate_volume, conversionFactors]

/-- C5 amended: `calculate_volume` performs no sign validation; for every
negative weight and every unit of the enum it returns the scaled (negative)
volumes and never an error.  Negative weights are excluded only by the UI
widget's `min_value = 0.0` clamp. -/
theorem calculate_volume_negative_no_error (w : ℚ) (hw : w < 0) :
    calculate_volume w "grams" = .ok ⟨w * 1000, w * 1, w * 0.061023744⟩ ∧
    ∀ u ∈ ["grams", "ounces", "pounds", "kilograms"],
      ∀ e : ConvError, calculate_volume w u ≠ .error e := by
  constructor
  · simp [calculate_volume, conversionFactors]
  · intro u hu e
    fin_cases hu <;> simp [calculate_volume, conversionFactors]

/-- Witness for C5's amended theorem at weight `−2`. -/
theorem calculate_volume_negative_no_error_witness :
    (-2 : ℚ) < 0 ∧
    calculate_volume (-2) "grams" = .ok ⟨-2 * 1000, -2 * 1, -2 * 0.061023744⟩ :=
  ⟨by decide, (calculate_volume_negative_no_error (-2) (by decide)).1⟩

/-- C6 counterexample: for the samples collection, loading a malformed
store file returns the empty list but performs no rename — the backup slot
stays empty and the corrupted file stays in place, contrary to the claim
that the quarantine holds for both collections. -/
theorem samples_malformed_not_renamed :
    load_data ⟨some (.malformed "not json"), none⟩ =
      ([], ⟨some (.malformed "not json"), none⟩) ∧
    (load_data ⟨some (.malformed "not json"), none⟩).2.backup = none :=
  ⟨rfl, rfl⟩

/-- C6 amended: for the projects collection, session-start loading
(`ensure_valid_json_file` followed by the load block) of a malformed file
renames it to the backup path (preserving its bytes), recreates the file
with the empty default and returns the empty list; for the samples
collection, `load_data` on a malformed file returns the empty list without
touching the file system — no backup is created.  Neither path propagates
a parse error (both are total). -/
theorem store_corruption_recovery (raw : String) (b : Option (FileContent ProjRec))
    (b2 : Option (FileContent SampleRec)) :
    projects_init ⟨some (.malformed raw), b⟩ =
      ([], ⟨some (.valid []), some (.malformed raw)⟩) ∧
    load_data ⟨some (.malformed raw), b2⟩ = ([], ⟨some (.malformed raw), b2⟩) :=
  ⟨rfl, rfl⟩

/-- C7 counterexample: start a session with the single project `#1000`
(counter is initialized to `1001`) and delete that project.  The next
assigned number is the cached counter `1001`, while recomputing from the
now-empty collection would give `1000` — the counter is not recomputed
after deletions. -/
theorem project_counter_stale_after_delete :
    (delete_projects (session_start [⟨1000⟩]) [0]).projects = [] ∧
    (delete_projects (session_start [⟨1000⟩]) [0]).project_counter = 1001 ∧
    next_project_number (delete_projects (session_start [⟨1000⟩]) [0]).projects = 1000 ∧
    (1001 : Int) ≠ 1000 := by
  refine ⟨rfl, rfl, rfl, by decide⟩

/-- C7 amended: the counter is computed from the collection only at
session start, where it equals the spec's `next_project_number` (so
`1000` on an empty collection and `1006` for `{1005, 999}`); afterwards
each New Project action increments the cached counter and deletions leave
it untouched, so it is not recomputed from the current collection. -/
theorem project_counter_behavior (ps : List ProjRec) (s : SessionState)
    (idxs : List Nat) :
    (session_start ps).project_counter = next_project_number ps ∧
    (session_start []).project_counter = 1000 ∧
    (session_start [⟨1005⟩, ⟨999⟩]).project_counter = 1006 ∧
    (create_new_project s).project_counter = s.project_counter + 1 ∧
    (create_new_project s).projects = s.projects ∧
    (delete_projects s idxs).project_counter = s.project_counter :=
  ⟨rfl, rfl, by decide, rfl, rfl, rfl⟩

/-- C10: when the store file exists with empty (or whitespace-only)
content, `ensure_valid_json_file` rewrites it in place with the default
and the backup slot is untouched; a backup is created exactly in the
remaining case of non-empty content that fails to parse.  The
absent-file and well-formed cases are included to cover the full case
split. -/
theorem ensure_valid_empty_vs_malformed (d d0 : List ProjRec)
    (b : Option (FileContent ProjRec)) (raw : String) :
    ensure_valid_json_file ⟨some .empty, b⟩ d = ⟨some (.valid d), b⟩ ∧
    ensure_valid_json_file ⟨some (.malformed raw), b⟩ d =
      ⟨some (.valid d), some (.malformed raw)⟩ ∧
    ensure_valid_json_file ⟨none, b⟩ d = ⟨some (.valid d), b⟩ ∧
    ensure_valid_json_file ⟨some (.valid d0), b⟩ d = ⟨some (.valid d0), b⟩ :=
  ⟨rfl, rfl, rfl, rfl⟩

end DVA

namespace DVA

variable {α : Type}

/-- Positions below every selected index are all kept. -/
theorem keep_not_selected_all_lt (idxs : List Nat) :
    ∀ (j : Nat) (l : List α), (∀ x ∈ idxs, x < j) → keep_not_selected idxs j l = l := by
  intro j l
  induction l generalizing j with
  | nil => intro _; rfl
  | cons a as ih =>
    intro h
    have hj : j ∉ idxs := fun hm => lt_irrefl j (h j hm)
    simp only [keep_not_selected, if_neg hj]
    rw [ih (j + 1) (fun x hx => Nat.lt_succ_of_lt (h x hx))]

/-- The complement depends only on membership in the selected set. -/
theorem keep_not_selected_congr (idxs idxs2 : List Nat)
    (hmem : ∀ x, x ∈ idxs ↔ x ∈ idxs2) :
    ∀ (j : Nat) (l : List α), keep_not_selected idxs j l = keep_not_selected idxs2 j l := by
  intro j l
  induction l generalizing j with
  | nil => rfl
  | cons a as ih =>
    by_cases hj : j ∈ idxs
    · simp only [keep_not_selected, if_pos hj, if_pos ((hmem j).mp hj)]
      exact ih (j + 1)
    · simp only [keep_not_selected, if_neg hj, if_neg (fun h => hj ((hmem j).mpr h))]
      rw [ih (j + 1)]

/-- Erasing the largest selected index commutes with the complement. -/
theorem keep_not_selected_eraseIdx (rest : List Nat) :
    ∀ (l : List α) (i j : Nat), (∀ x ∈ rest, x < i + j) →
      keep_not_selected ((i + j) :: rest) j l = keep_not_selected rest j (l.eraseIdx i) := by
  intro l
  induction l with
  | nil => intro i j _; rfl
  | cons a as ih =>
    intro i j hlt
    cases i with
    | zero =>
      simp only [Nat.zero_add] at hlt ⊢
      rw [List.eraseIdx_cons_zero, keep_not_selected_all_lt rest j as hlt]
      have hmem : j ∈ j :: rest := List.mem_cons_self j rest
      simp only [keep_not_selected, if_pos hmem]
      refine keep_not_selected_all_lt (j :: rest) (j + 1) as ?_
      intro x hx
      rcases List.mem_cons.mp hx with h | h
      · omega
      · exact Nat.lt_succ_of_lt (hlt x h)
    | succ k =>
      rw [List.eraseIdx_cons_succ]
      have hne : j ≠ k + 1 + j := by omega
      have hstep : k + 1 + j = k + (j + 1) := by omega
      by_cases hj : j ∈ rest
      · have hmemL : j ∈ (k + 1 + j) :: rest := List.mem_cons_of_mem _ hj
        simp only [keep_not_selected, if_pos hmemL, if_pos hj]
        rw [hstep]
        exact ih k (j + 1) (fun x hx => by have := hlt x hx; omega)
      · have hmemL : j ∉ (k + 1 + j) :: rest := by
          intro hc
          rcases List.mem_cons.mp hc with h | h
          · exact hne h
          · exact hj h
        simp only [keep_not_selected, if_neg hmemL, if_neg hj]
        rw [hstep, ih k (j + 1) (fun x hx => by have := hlt x hx; omega)]

/-- Popping a descending, duplicate-free, in-range index list is the
complement of the selected positions. -/
theorem foldl_eraseIdx_sorted :
    ∀ (s : List Nat) (l : List α), List.Sorted (· ≥ ·) s → s.Nodup →
      (∀ x ∈ s, x < l.length) →
      s.foldl List.eraseIdx l = keep_not_selected s 0 l := by
  intro s
  induction s with
  | nil =>
    intro l _ _ _
    exact (keep_not_selected_all_lt [] 0 l (by simp)).symm
  | cons i rest ih =>
    intro l hs hnd hlt
    simp only [List.foldl_cons]
    have hsorted := List.sorted_cons.mp hs
    have hndc := List.nodup_cons.mp hnd
    have hrest_lt : ∀ x ∈ rest, x < (l.eraseIdx i).length := by
      intro x hx
      have h1 : i ≥ x := hsorted.1 x hx
      have h2 : x ≠ i := fun he => hndc.1 (he ▸ hx)
      have h3 : i < l.length := hlt i (List.mem_cons_self i rest)
      rw [List.length_eraseIdx, if_pos h3]
      omega
    rw [ih (l.eraseIdx i) hsorted.2 hndc.2 hrest_lt]
    have hkey := keep_not_selected_eraseIdx rest l i 0 (by
      intro x hx
      have h1 : i ≥ x := hsorted.1 x hx
      have h2 : x ≠ i := fun he => hndc.1 (he ▸ hx)
      omega)
    simpa using hkey.symm

/-- The sorted-pop delete handler equals the complement filter. -/
theorem delete_selected_complement (l : List α) (idxs : List Nat)
    (hnd : idxs.Nodup) (hlt : ∀ i ∈ idxs, i < l.length) :
    delete_selected l idxs = complement_of l idxs := by
  unfold delete_selected complement_of
  have hperm := List.perm_insertionSort (fun a b : Nat => a ≥ b) idxs
  rw [foldl_eraseIdx_sorted (List.insertionSort (· ≥ ·) idxs) l
      (List.sorted_insertionSort _ idxs) (hperm.nodup_iff.mpr hnd)
      (fun x hx => hlt x (hperm.mem_iff.mp hx))]
  exact keep_not_selected_congr _ idxs (fun x => by simp) 0 l

/-- C8: deleting a duplicate-free set of in-range selected positions
removes exactly the selected records — the result is the complement of the
selection — and the result does not depend on the order in which the
positions are supplied. -/
theorem delete_selected_is_complement (l : List α) (idxs idxs2 : List Nat)
    (hnd : idxs.Nodup) (hlt : ∀ i ∈ idxs, i < l.length) (hperm : idxs2.Perm idxs) :
    delete_selected l idxs = complement_of l idxs ∧
    delete_selected l idxs2 = delete_selected l idxs := by
  have h1 := delete_selected_complement l idxs hnd hlt
  have h2 := delete_selected_complement l idxs2 (hperm.nodup_iff.mpr hnd)
    (fun i hi => hlt i (hperm.mem_iff.mp hi))
  refine ⟨h1, ?_⟩
  rw [h2, h1]
  exact keep_not_selected_congr idxs2 idxs (fun x => hperm.mem_iff) 0 l

/-- Witness for C8: deleting positions 1 and 3 from a 5-element list, in
either supplied order, leaves exactly the 3 non-selected records. -/
theorem delete_selected_is_complement_witness :
    delete_selected [10, 20, 30, 40, 50] [1, 3] = complement_of [10, 20, 30, 40, 50] [1, 3] ∧
    delete_selected [10, 20, 30, 40, 50] [3, 1] = delete_selected [10, 20, 30, 40, 50] [1, 3] ∧
    complement_of [10, 20, 30, 40, 50] [1, 3] = [10, 30, 50] := by
  have h := delete_selected_is_complement [10, 20, 30, 40, 50] [1, 3] [3, 1]
    (by decide) (by decide) (by decide)
  exact ⟨h.1, h.2, by decide⟩

end DVA

namespace DVA

/-- One import-loop iteration, rephrased with the duplicate test as an
existential: the Boolean `any` of the source and the spec-side wording
agree. -/
theorem batch_import_step_eq (samples : List SampleRec) (i k : Nat) (row : CsvRow) :
    batch_import_step (samples, i, k) row =
      match row.weight with
      | none => (samples, i, k + 1)
      | some w =>
        if (∃ s ∈ samples, s.id = pyStrip row.sample_id) ∨
            pyStrip (pyLower row.unit) ∉ ["grams", "ounces", "pounds", "kilograms"] then
          (samples, i, k + 1)
        else
          (samples ++ [⟨pyStrip row.sample_id, w, pyStrip (pyLower row.unit)⟩], i + 1, k) := by
  by_cases hdup : ∃ s ∈ samples, s.id = pyStrip row.sample_id
  · have hb : (samples.any fun s => s.id == pyStrip row.sample_id) = true := by
      simpa [List.any_eq_true] using hdup
    cases hw : row.weight <;> simp [batch_import_step, hb, hdup]
  · have hb : (samples.any fun s => s.id == pyStrip row.sample_id) = false := by
      simpa [List.any_eq_false] using hdup
    by_cases hunit : pyStrip (pyLower row.unit) ∉ ["grams", "ounces", "pounds", "kilograms"]
    · cases hw : row.weight <;> simp [batch_import_step, hb, hdup, hunit]
    · cases hw : row.weight <;> simp [batch_import_step, hb, hdup, hunit, hw]

/-- The import-handler fold equals the spec-side recursion over the rows. -/
theorem batch_import_foldl_eq :
    ∀ (rows : List CsvRow) (samples : List SampleRec) (i k : Nat),
      rows.foldl batch_import_step (samples, i, k) =
        batch_import_rows samples rows i k := by
  intro rows
  induction rows with
  | nil => intro samples i k; rfl
  | cons row rest ih =>
    intro samples i k
    rw [List.foldl_cons, batch_import_step_eq]
    cases hw : row.weight with
    | none =>
      simp only [batch_import_rows, hw]
      exact ih samples i (k + 1)
    | some w =>
      simp only [batch_import_rows, hw]
      by_cases hcond : (∃ s ∈ samples, s.id = pyStrip row.sample_id) ∨
          pyStrip (pyLower row.unit) ∉ ["grams", "ounces", "pounds", "kilograms"]
      · rw [if_pos hcond, if_pos hcond]
        exact ih samples i (k + 1)
      · rw [if_neg hcond, if_neg hcond]
        exact ih _ (i + 1) k

/-- Every row is counted exactly once, as imported or as skipped. -/
theorem batch_import_rows_count :
    ∀ (rows : List CsvRow) (samples : List SampleRec) (i k : Nat),
      (batch_import_rows samples rows i k).2.1 + (batch_import_rows samples rows i k).2.2 =
        i + k + rows.length := by
  intro rows
  induction rows with
  | nil => intro samples i k; simp [batch_import_rows]
  | cons row rest ih =>
    intro samples i k
    cases hw : row.weight with
    | none =>
      simp only [batch_import_rows, hw]
      rw [ih]
      simp [List.length_cons]
      omega
    | some w =>
      simp only [batch_import_rows, hw]
      by_cases hcond : (∃ s ∈ samples, s.id = pyStrip row.sample_id) ∨
          pyStrip (pyLower row.unit) ∉ ["grams", "ounces", "pounds", "kilograms"]
      · rw [if_pos hcond, ih]
        simp [List.length_cons]
        omega
      · rw [if_neg hcond, ih]
        simp [List.length_cons]
        omega

/-- C9 counterexample: a batch whose two rows both have valid units and
parsable weights and whose ids are absent from the current collection, but
which duplicate each other inside the batch: the handler imports the first
and skips the second (skip count 1), because the duplicate test runs
against the collection as it grows during the batch. -/
theorem batch_import_within_batch_duplicate :
    batch_import [] [⟨"A", some 1, "grams"⟩, ⟨"A", some 2, "grams"⟩] =
      ([⟨"A", 1, "grams"⟩], 1, 1) ∧
    (batch_import [] [⟨"A", some 1, "grams"⟩, ⟨"A", some 2, "grams"⟩]).2.2 ≠ 0 := by
  constructor <;> decide

/-- C9 amended: a row is skipped exactly when its stripped id duplicates a
record of the collection as updated by the preceding rows of the batch
(so within-batch duplicates are also rejected), or its normalized unit is
outside the fixed enum, or its weight does not parse; every valid row is
appended, imported and skipped counts sum to the batch size, and the whole
updated collection is persisted exactly once after the entire batch. -/
theorem batch_import_spec (samples : List SampleRec) (rows : List CsvRow)
    (fs : FS SampleRec) :
    batch_import samples rows = batch_import_rows samples rows 0 0 ∧
    (batch_import samples rows).2.1 + (batch_import samples rows).2.2 = rows.length ∧
    batch_import_and_save fs samples rows =
      (batch_import samples rows,
        { fs with file := some (.valid (batch_import samples rows).1) }) := by
  refine ⟨batch_import_foldl_eq rows samples 0 0, ?_, rfl⟩
  show (rows.foldl batch_import_step (samples, 0, 0)).2.1 +
      (rows.foldl batch_import_step (samples, 0, 0)).2.2 = rows.length
  rw [batch_import_foldl_eq rows samples 0 0]
  simpa using batch_import_rows_count rows samples 0 0

end DVA
